import Mathlib

/-!
Verification development for the YACHT abundance-recovery pipeline
(`recover_abundance.py`).

The Python source is shallowly embedded here:

* real-valued quantities are modelled by `ℚ` (the LP formulation is exact
  rational/linear arithmetic; floating point only enters through the external
  solver backend, which is modelled as an oracle);
* the external convex solver (`cvxpy` + `scipy`) is modelled by an oracle
  that receives the formulated problem — objective function and constraint
  predicate, exactly the two components of `cp.Problem(objective,
  constraints)` — and whose possible behaviours mirror the `cvxpy`
  interface: it either produces a solution (then `x.value` is that solution),
  terminates with a failure status such as infeasible/unbounded (then
  `prob.solve` returns normally and `x.value` is `None`), or raises a
  `SolverError`;
* Python exceptions are modelled with `Except PyError`; a normal return of
  `x.value` (which may be `None`) is `.ok`;
* `cvxpy` shape semantics are transcribed from the `cvxpy` source file
  `utilities/shape.py` (`sum_shapes`): two operand shapes may be combined
  only when they are equal or one of them is scalar-like (all dimensions of
  size one; "Only allow broadcasting for 0D arrays or summation of
  scalars"), in which case the scalar-like side is broadcast; otherwise a
  `ValueError` ("Cannot broadcast dimensions") is raised while the constraint
  is built;
* file I/O performed by the collaborators (`load_npz`,
  `sample_vector_from_files`, `load_processed_organisms`) is modelled by an
  environment of oracle functions from file names to contents, and the
  pipeline additionally records the list of file names it reads.
-/

namespace YACHT

/-- Runtime error model. The first group are errors the Python code can
actually raise (directly or from the libraries it calls); the second group are
the error names used by the design document (`ShapeMismatchError`,
`OptimizationError`, `InvalidParameterError`, none of which occur anywhere in
the code) — they are included in the type so that claims about them can be
stated and compared against the behaviour of the code. -/
inductive PyError where
  | zeroDivisionError
  | valueError
  | solverError
  | noneTypeError
  | indexError
  | nameError
  | shapeMismatchError
  | optimizationError
  | invalidParameterError
  deriving DecidableEq, Repr

/-- A candidate solution of the optimization problem: the decision variables
`x = cp.Variable(N)`, `u = cp.Variable(K)`, `v = cp.Variable(K)`. -/
structure LPSol (K N : ℕ) where
  x : Fin N → ℚ
  u : Fin K → ℚ
  v : Fin K → ℚ

/-- Source line `tau = 1 / (w + 1)`. (In the embedding `1 / 0 = 0`; the code
path where `w + 1 = 0` raises `ZeroDivisionError` before `tau` is ever used,
see `recover_abundance_from_vectors`.) -/
def tau (w : ℚ) : ℚ := 1 / (w + 1)

/-- Source objective
`cp.Minimize(tau * (ones_K @ u) + (1 - tau) * (ones_K @ v))`, with
`ones_K = np.ones(K)`, so each dot product is `∑ k, 1 * (· k)`. -/
def objective {K N : ℕ} (w : ℚ) (s : LPSol K N) : ℚ :=
  tau w * (Finset.univ.sum fun k => (1 : ℚ) * s.u k)
    + (1 - tau w) * (Finset.univ.sum fun k => (1 : ℚ) * s.v k)

/-- Source constraint list `[x >= 0, u >= 0, v >= 0, u - v + (A @ x) == y]`,
read entrywise/rowwise as `cvxpy` does, in the well-shaped case where `y` has
one entry per row of `A`. -/
def Feasible {K N : ℕ} (A : Fin K → Fin N → ℚ) (y : Fin K → ℚ)
    (s : LPSol K N) : Prop :=
  (∀ j, 0 ≤ s.x j) ∧ (∀ k, 0 ≤ s.u k) ∧ (∀ k, 0 ≤ s.v k) ∧
    (∀ k, s.u k - s.v k + (Finset.univ.sum fun j => A k j * s.x j) = y k)

/-- Source constraint list in the degenerate broadcast case `K = 1` with
`len(y) ≠ 1`: the scalar-like expression `u - v + (A @ x)` (shape `(1,)`) is
broadcast by `cvxpy` across the `len(y)` rows of the equality, so every entry
of `y` is equated with the same single residual expression. -/
def DegenFeasible {K N : ℕ} (hK : 0 < K) (A : Fin K → Fin N → ℚ)
    (y : List ℚ) (s : LPSol K N) : Prop :=
  (∀ j, 0 ≤ s.x j) ∧ (∀ k, 0 ≤ s.u k) ∧ (∀ k, 0 ≤ s.v k) ∧
    ∀ i : Fin y.length,
      s.u ⟨0, hK⟩ - s.v ⟨0, hK⟩ +
        (Finset.univ.sum fun j => A ⟨0, hK⟩ j * s.x j) = y.get i

/-- The formulated problem handed to the solver:
`prob = cp.Problem(objective, constraints)`. -/
structure CvxProblem (K N : ℕ) where
  objective : LPSol K N → ℚ
  constraints : LPSol K N → Prop

/-- `s` minimizes the objective of `P` over the constraints of `P`. -/
def IsOptimal {K N : ℕ} (P : CvxProblem K N) (s : LPSol K N) : Prop :=
  P.constraints s ∧ ∀ t, P.constraints t → P.objective s ≤ P.objective t

/-- Possible behaviours of `prob.solve(solver=cp.SCIPY, verbose=False)`:
the backend finds a solution (then `x.value` holds it); the backend
terminates with a non-optimal status such as infeasible or unbounded (then
`prob.solve` returns normally and `x.value` is `None`); or the backend raises
(`cvxpy.error.SolverError`), which the code does not catch. -/
inductive SolveOutcome (K N : ℕ) where
  | optimal (s : LPSol K N)
  | failed
  | raised

/-- The tail of `recover_abundance_from_vectors` after the problem is built:
`result = prob.solve(...)` (an uncaught `SolverError` propagates) followed by
`return x.value` — the solution verbatim when the backend produced one,
`None` otherwise. -/
def solveReturn {K N : ℕ} : SolveOutcome K N → Except PyError (Option (List ℚ))
  | .optimal s => .ok (some (List.ofFn s.x))
  | .failed => .ok none
  | .raised => .error .solverError

/-- Reading of a Python list/array of length `K` as a vector `Fin K → ℚ`
(used only after the length has been checked). -/
def vecOf (K : ℕ) (y : List ℚ) : Fin K → ℚ := fun k => y.getD k.1 0

/-- Embedding of `recover_abundance_from_vectors(A, y, w)`
(`recover_abundance.py`, lines 14–32), parameterized by the solver oracle.

Control flow, in source order:
1. `K, N = np.shape(A)` — given by the types; the variables are created;
2. `tau = 1 / (w + 1)` — raises `ZeroDivisionError` when `w + 1 == 0`
   (the arguments are floats, and float division by zero raises);
3. the objective is built (no failure possible);
4. the constraints are built; `u - v + (A @ x) == y` follows `cvxpy` shape
   semantics (see the file header): when `len(y) = K` the equality is
   rowwise; when `len(y) = 1` the scalar-like `y` is broadcast across the
   `K` rows; when `K = 1` the scalar-like expression side is broadcast
   across the `len(y)` rows; any other mismatch raises a broadcast
   `ValueError` — there is no explicit shape validation anywhere in the
   function;
5. `prob.solve(...)` runs the backend on the formulated problem and
   `x.value` is returned (see `solveReturn`).  No exception of any kind is
   raised on a failed solve, and the result is not post-processed. -/
def recover_abundance_from_vectors {K N : ℕ}
    (solve : CvxProblem K N → SolveOutcome K N)
    (A : Fin K → Fin N → ℚ) (y : List ℚ) (w : ℚ) :
    Except PyError (Option (List ℚ)) :=
  if w + 1 = 0 then .error .zeroDivisionError
  else if y.length = K then
    solveReturn (solve ⟨objective w, Feasible A (vecOf K y)⟩)
  else if y.length = 1 then
    solveReturn (solve ⟨objective w, Feasible A (fun _ => y.getD 0 0)⟩)
  else if hK : K = 1 then
    solveReturn (solve ⟨objective w, DegenFeasible (by omega) A y⟩)
  else .error .valueError

/-! Spec-side restatement of the linear program, written from the words of the
design document (§4.1): objective `tau * sum(u) + (1 - tau) * sum(v)` with
`tau = 1/(w+1)`, constraints `x ≥ 0`, `u ≥ 0`, `v ≥ 0`, and
`u - v + A·x = y` for every row.  These are to be compared with `objective`
and `Feasible`, which are transcribed from the code. -/

/-- Spec-side objective: `tau * sum(u) + (1 - tau) * sum(v)`,
`tau = 1/(w+1)`. -/
def specObjective {K N : ℕ} (w : ℚ) (s : LPSol K N) : ℚ :=
  (1 / (w + 1)) * (Finset.univ.sum s.u)
    + (1 - 1 / (w + 1)) * (Finset.univ.sum s.v)

/-- Spec-side constraints: `x ≥ 0`, `u ≥ 0`, `v ≥ 0`, and for every row `k`,
`u k - v k + (A·x) k = y k`. -/
def SpecFeasible {K N : ℕ} (A : Fin K → Fin N → ℚ) (y : Fin K → ℚ)
    (s : LPSol K N) : Prop :=
  (∀ j, 0 ≤ s.x j) ∧ (∀ k, 0 ≤ s.u k) ∧ (∀ k, 0 ≤ s.v k) ∧
    (∀ k, s.u k - s.v k + (Finset.univ.sum fun j => A k j * s.x j) = y k)

/-- `s` is an optimum of the linear program as the spec words it. -/
def SpecIsOptimal {K N : ℕ} (A : Fin K → Fin N → ℚ) (y : Fin K → ℚ) (w : ℚ)
    (s : LPSol K N) : Prop :=
  SpecFeasible A y s ∧
    ∀ t, SpecFeasible A y t → specObjective w s ≤ specObjective w t

/-! The file-level pipeline (`recover_abundance_from_files`,
`write_abundance_results`) and its collaborators. -/

/-- The module-level CLI namespace: `args = parser.parse_args()` is defined
only under the `__main__` guard.  A library caller sees `args` undefined,
which we model as `Option Args` being `none`. -/
structure Args where
  ref_file : String

/-- The characters of `s` strictly before the first occurrence of `pat`
(all of `s` when `pat` does not occur). -/
def takeUntil (pat : List Char) : List Char → List Char
  | [] => []
  | c :: cs => if List.isPrefixOf pat (c :: cs) then [] else c :: takeUntil pat cs

/-- Python `s.split(pat)[0]`: the part of `s` before the first occurrence of
`pat` (the whole of `s` when `pat` is absent). -/
def splitHead (s pat : String) : String := String.mk (takeUntil pat.data s.data)

/-- Source lines
`prefix = args.ref_file.split(<the string ref_matrix_processed.npz>)[0]` and
`hash_to_idx_file = prefix + <the string hash_to_col_idx.csv>`. -/
def hashToIdxFile (ref : String) : String :=
  splitHead ref "ref_matrix_processed.npz" ++ "hash_to_col_idx.csv"

/-- Source line
`processed_org_file = prefix + <the string processed_org_idx.csv>`. -/
def processedOrgFile (ref : String) : String :=
  splitHead ref "ref_matrix_processed.npz" ++ "processed_org_idx.csv"

/-- Source line `support = np.nonzero(abundance)`: for a 1-d array,
`np.nonzero` returns the indices whose entry is nonzero — an exact comparison
against zero, with no tolerance, and counting negative entries as nonzero. -/
def supportOf (xs : List ℚ) : List ℕ :=
  (List.range xs.length).filter fun i => xs.getD i 0 ≠ 0

/-- The data rows of `write_abundance_results`: the loop
`for i, org in enumerate(organisms)` writes, for each index `i` below
`len(organisms)`, the row `[org, abundance_vector[i]]`, i.e. the pair
`(organisms[i], abundance_vector[i])`. -/
def resultRows (abundance_vector : List ℚ) (organisms : List String) :
    List (String × ℚ) :=
  (List.range organisms.length).map fun i =>
    (organisms.getD i "", abundance_vector.getD i 0)

/-- Embedding of `write_abundance_results(abundance_vector, organisms,
output_filename)` (`recover_abundance.py`, lines 49–55): the value is the CSV
content written to the output file — a fixed header row followed by one data
row per organism, in manifest order.  When some loop index `i` is out of
range for `abundance_vector`, Python raises an `IndexError` mid-loop; that
case is modelled as `none` (no claim concerns the partially written file). -/
def write_abundance_results (abundance_vector : List ℚ)
    (organisms : List String) :
    Option ((String × String) × List (String × ℚ)) :=
  if organisms.length ≤ abundance_vector.length then
    some (("organism name", "estimated abundance"),
      resultRows abundance_vector organisms)
  else none

/-- The external collaborators of `recover_abundance_from_files`, as oracles
from file names to contents: `load_npz`, `sv.sample_vector_from_files`,
`utils.load_processed_organisms`, and the LP solver backend. -/
structure Env (K N : ℕ) where
  readMatrix : String → (Fin K → Fin N → ℚ)
  readSampleVector : String → String → ℕ → List ℚ
  readOrganisms : String → List String
  solve : CvxProblem K N → SolveOutcome K N

/-- Embedding of `recover_abundance_from_files(matrix_file, sample_file,
ksize, w, output_filename)` (`recover_abundance.py`, lines 35–46).  The
result pairs the list of file names read (in order) with either the Python
exception raised or the pair (CSV content written, returned abundance
vector).

Control flow, in source order:
1. the first statement reads `args.ref_file`, where `args` is the
   module-level CLI global; when it is undefined (library use) this raises
   `NameError` before any file is read.  Note the auxiliary file names are
   derived from `args.ref_file`, not from `matrix_file`;
2. `load_npz(matrix_file)`, then `sv.sample_vector_from_files(sample_file,
   hash_to_idx_file, ksize)` (which reads the hash-to-index CSV);
3. `recover_abundance_from_vectors(...)`; its exceptions propagate;
4. `support = np.nonzero(abundance)` — computed into a local that is never
   used again; when `abundance` is `None` (failed solve) NumPy rejects the
   0-d object array, modelled as `noneTypeError`;
5. `utils.load_processed_organisms(processed_org_file)`;
6. `write_abundance_results(...)`, then `return abundance`. -/
def recover_abundance_from_files {K N : ℕ} (env : Env K N)
    (gArgs : Option Args) (matrix_file sample_file : String) (ksize : ℕ)
    (w : ℚ) :
    List String ×
      Except PyError (((String × String) × List (String × ℚ)) × List ℚ) :=
  match gArgs with
  | none => ([], .error .nameError)
  | some a =>
    let hFile := hashToIdxFile a.ref_file
    let oFile := processedOrgFile a.ref_file
    let A := env.readMatrix matrix_file
    let y := env.readSampleVector sample_file hFile ksize
    match recover_abundance_from_vectors env.solve A y w with
    | .error e => ([matrix_file, hFile], .error e)
    | .ok none => ([matrix_file, hFile], .error .noneTypeError)
    | .ok (some abundance) =>
      let _support := supportOf abundance
      let organisms := env.readOrganisms oFile
      match write_abundance_results abundance organisms with
      | none => ([matrix_file, hFile, oFile], .error .indexError)
      | some out => ([matrix_file, hFile, oFile], .ok (out, abundance))

/-! Concrete fixtures used by witnesses and counterexamples. -/

/-- The all-zero solution. -/
def zeroSol (K N : ℕ) : LPSol K N := ⟨fun _ => 0, fun _ => 0, fun _ => 0⟩

/-- The 1×1 all-ones matrix. -/
def A11 : Fin 1 → Fin 1 → ℚ := fun _ _ => 1

/-- A solver oracle that always reports a non-optimal status. -/
def solveFail (K N : ℕ) : CvxProblem K N → SolveOutcome K N := fun _ => .failed

/-- Solution `x = 1, u = 0, v = 0` of the 1×1 problem. -/
def sol111 : LPSol 1 1 := ⟨fun _ => 1, fun _ => 0, fun _ => 0⟩

/-- A solver oracle that always returns `sol111`. -/
def solveOpt11 : CvxProblem 1 1 → SolveOutcome 1 1 := fun _ => .optimal sol111

/-- Solution `x = 1, u = 0, v = 1` of the 1×1 problem (used to refute the
zero-sample uniqueness claim at `w = 0`). -/
def solNZ : LPSol 1 1 := ⟨fun _ => 1, fun _ => 0, fun _ => 1⟩

/-- A solver oracle that always returns `solNZ`. -/
def solveNZ : CvxProblem 1 1 → SolveOutcome 1 1 := fun _ => .optimal solNZ

/-- The 2×2 identity matrix of the worked scenario of the spec. -/
def A22 : Fin 2 → Fin 2 → ℚ := fun k j => if k = j then 1 else 0

/-- The sample vector `[5, 0]` of the worked scenario of the spec. -/
def y22 : Fin 2 → ℚ := fun k => if k = 0 then 5 else 0

/-- Solution `x = (5, 0), u = 0, v = 0` of the scenario problem. -/
def sol22 : LPSol 2 2 := ⟨y22, fun _ => 0, fun _ => 0⟩

/-- A solver oracle that always returns `sol22`. -/
def solveOpt22 : CvxProblem 2 2 → SolveOutcome 2 2 := fun _ => .optimal sol22

/-- A concrete environment for the file-pipeline witnesses. -/
def env11 : Env 1 1 :=
  ⟨fun _ => A11, fun _ _ _ => [1], fun _ => ["orgA"], solveOpt11⟩

/-- A concrete `args` global. -/
def args1 : Args := ⟨"pre_ref_matrix_processed.npz"⟩

/-! Helper lemmas shared by several claims. -/

/-- Refinement: the objective transcribed from the code is exactly the
objective as the spec words it (the `ones_K @ u` dot product is `sum(u)`). -/
theorem objective_eq_spec {K N : ℕ} (w : ℚ) (s : LPSol K N) :
    objective w s = specObjective w s := by
  unfold objective specObjective tau
  simp [one_mul]

/-- Refinement: the constraint set transcribed from the code is exactly the
constraint set as the spec words it. -/
theorem feasible_iff_spec {K N : ℕ} (A : Fin K → Fin N → ℚ) (y : Fin K → ℚ)
    (s : LPSol K N) : Feasible A y s ↔ SpecFeasible A y s := Iff.rfl

/-- For `w ≥ 0`, `tau = 1/(w+1)` is positive. -/
theorem tau_pos_of_nonneg {w : ℚ} (hw : 0 ≤ w) : 0 < tau w := by
  unfold tau
  positivity

/-- For `w ≥ 0`, `tau = 1/(w+1)` is at most `1`. -/
theorem tau_le_one_of_nonneg {w : ℚ} (hw : 0 ≤ w) : tau w ≤ 1 := by
  unfold tau
  rw [div_le_one (by linarith)]
  linarith

/-- For `w > 0`, `tau = 1/(w+1)` is strictly below `1`. -/
theorem tau_lt_one_of_pos {w : ℚ} (hw : 0 < w) : tau w < 1 := by
  unfold tau
  rw [div_lt_one (by linarith)]
  linarith

/-- The objective is nonnegative on points with nonnegative `u`, `v`
whenever `0 ≤ w`. -/
theorem objective_nonneg {K N : ℕ} {w : ℚ} {s : LPSol K N}
    (hw : 0 ≤ w) (hu : ∀ k, 0 ≤ s.u k) (hv : ∀ k, 0 ≤ s.v k) :
    0 ≤ objective w s := by
  have htau : 0 < tau w := tau_pos_of_nonneg hw
  have htau1 : tau w ≤ 1 := tau_le_one_of_nonneg hw
  unfold objective
  have hsu : 0 ≤ Finset.univ.sum fun k => (1 : ℚ) * s.u k :=
    Finset.sum_nonneg fun k _ => by simpa using hu k
  have hsv : 0 ≤ Finset.univ.sum fun k => (1 : ℚ) * s.v k :=
    Finset.sum_nonneg fun k _ => by simpa using hv k
  have h1 : 0 ≤ tau w * Finset.univ.sum fun k => (1 : ℚ) * s.u k :=
    mul_nonneg htau.le hsu
  have h2 : 0 ≤ (1 - tau w) * Finset.univ.sum fun k => (1 : ℚ) * s.v k :=
    mul_nonneg (by linarith) hsv
  linarith

/-- A feasible point with objective value `0` is optimal when `0 ≤ w`. -/
theorem optimal_of_obj_zero {K N : ℕ} (A : Fin K → Fin N → ℚ)
    (y : Fin K → ℚ) {w : ℚ} {s : LPSol K N}
    (hw : 0 ≤ w) (hf : Feasible A y s) (h0 : objective w s = 0) :
    IsOptimal ⟨objective w, Feasible A y⟩ s := by
  refine ⟨hf, fun t ht => ?_⟩
  show objective w s ≤ objective w t
  rw [h0]
  exact objective_nonneg hw ht.2.1 ht.2.2.1

/-- When both objective weights are positive and the optimal value is `0`
(witnessed by a feasible point of objective `0`), every optimal solution has
`u = 0` and `v = 0`. -/
theorem uv_eq_zero_of_optimal {K N : ℕ} {A : Fin K → Fin N → ℚ}
    {y : Fin K → ℚ} {w : ℚ} {s : LPSol K N}
    (htau0 : 0 < tau w) (htau1 : tau w < 1)
    (hopt : IsOptimal ⟨objective w, Feasible A y⟩ s) (s0 : LPSol K N)
    (hf0 : Feasible A y s0) (h00 : objective w s0 = 0) :
    (∀ k, s.u k = 0) ∧ (∀ k, s.v k = 0) := by
  obtain ⟨hf, hmin⟩ := hopt
  have hle : objective w s ≤ 0 := by
    have h1 := hmin s0 hf0
    change objective w s ≤ objective w s0 at h1
    rwa [h00] at h1
  obtain ⟨hx, hu, hv, hc⟩ := hf
  have hsu : 0 ≤ Finset.univ.sum fun k => (1 : ℚ) * s.u k :=
    Finset.sum_nonneg fun k _ => by simpa using hu k
  have hsv : 0 ≤ Finset.univ.sum fun k => (1 : ℚ) * s.v k :=
    Finset.sum_nonneg fun k _ => by simpa using hv k
  have hmu : 0 ≤ tau w * Finset.univ.sum fun k => (1 : ℚ) * s.u k :=
    mul_nonneg htau0.le hsu
  have hmv : 0 ≤ (1 - tau w) * Finset.univ.sum fun k => (1 : ℚ) * s.v k :=
    mul_nonneg (by linarith) hsv
  have hobj : tau w * (Finset.univ.sum fun k => (1 : ℚ) * s.u k)
      + (1 - tau w) * (Finset.univ.sum fun k => (1 : ℚ) * s.v k) ≤ 0 := hle
  have hterm_u : tau w * (Finset.univ.sum fun k => (1 : ℚ) * s.u k) = 0 :=
    le_antisymm (by linarith) hmu
  have hterm_v :
      (1 - tau w) * (Finset.univ.sum fun k => (1 : ℚ) * s.v k) = 0 :=
    le_antisymm (by linarith) hmv
  have hSu : (Finset.univ.sum fun k => (1 : ℚ) * s.u k) = 0 := by
    rcases mul_eq_zero.1 hterm_u with h | h
    · exact absurd h (ne_of_gt htau0)
    · exact h
  have hSv : (Finset.univ.sum fun k => (1 : ℚ) * s.v k) = 0 := by
    rcases mul_eq_zero.1 hterm_v with h | h
    · exact absurd h (by intro h2; linarith [h2])
    · exact h
  have hu0 := (Finset.sum_eq_zero_iff_of_nonneg
    (fun k _ => by simpa using hu k)).1 hSu
  have hv0 := (Finset.sum_eq_zero_iff_of_nonneg
    (fun k _ => by simpa using hv k)).1 hSv
  constructor
  · intro k
    simpa using hu0 k (Finset.mem_univ k)
  · intro k
    simpa using hv0 k (Finset.mem_univ k)

/-- `solveReturn` never yields `InvalidParameterError`, whatever the backend
does. -/
theorem solveReturn_ne_invalid {K N : ℕ} (o : SolveOutcome K N) :
    solveReturn o ≠ Except.error PyError.invalidParameterError := by
  cases o <;> simp [solveReturn]

/-- Inversion of a successful run of `recover_abundance_from_files`: the
abundance is exactly what `recover_abundance_from_vectors` returned, the CSV
content is exactly `write_abundance_results` of that abundance and of the
organisms read from the processed-organisms file (derived from
`args.ref_file`), and the files read are the matrix file and the two
auxiliary files. -/
theorem from_files_ok_inv {K N : ℕ} (env : Env K N) (a : Args)
    (mf sf : String) (ks : ℕ) (w : ℚ) (tr : List String)
    (out : (String × String) × List (String × ℚ)) (ab : List ℚ)
    (h : recover_abundance_from_files env (some a) mf sf ks w =
      (tr, Except.ok (out, ab))) :
    recover_abundance_from_vectors env.solve (env.readMatrix mf)
      (env.readSampleVector sf (hashToIdxFile a.ref_file) ks) w =
        Except.ok (some ab) ∧
    write_abundance_results ab
      (env.readOrganisms (processedOrgFile a.ref_file)) = some out ∧
    tr = [mf, hashToIdxFile a.ref_file, processedOrgFile a.ref_file] := by
  simp only [recover_abundance_from_files] at h
  split at h
  next e heq =>
    simp at h
  next heq =>
    simp at h
  next ab2 heq =>
    split at h
    next heq2 =>
      simp at h
    next out2 heq2 =>
      simp only [Prod.mk.injEq, Except.ok.injEq] at h
      obtain ⟨htr, hout, hab⟩ := h
      subst hout
      subst hab
      exact ⟨heq, heq2, htr.symm⟩

/-! The ten claims. -/

/-- C1: for a reference matrix `A` of shape `K×N`, a sample vector `y` of
length `K` and a weight `w ≥ 0`, `recover_abundance_from_vectors` hands the
solver exactly the linear program "minimize `tau*sum(u) + (1-tau)*sum(v)`
with `tau = 1/(w+1)`, subject to `x ≥ 0`, `u ≥ 0`, `v ≥ 0`, and
`u - v + A·x = y` rowwise", and when the solver returns an optimum of that
program the function returns its `x` part: the output is an optimal `x` of
the claimed program (`SpecIsOptimal` is transcribed from the wording of the
claim; `objective_eq_spec` and `feasible_iff_spec` bridge it to the
formulation transcribed from the code). -/
theorem recover_abundance_solves_claimed_lp {K N : ℕ}
    (solve : CvxProblem K N → SolveOutcome K N) (A : Fin K → Fin N → ℚ)
    (y : List ℚ) (w : ℚ) (xs : List ℚ) (s : LPSol K N)
    (hw : 0 ≤ w) (hy : y.length = K)
    (hs : solve ⟨objective w, Feasible A (vecOf K y)⟩ =
      SolveOutcome.optimal s)
    (hopt : IsOptimal ⟨objective w, Feasible A (vecOf K y)⟩ s)
    (hrun : recover_abundance_from_vectors solve A y w =
      Except.ok (some xs)) :
    xs = List.ofFn s.x ∧ SpecIsOptimal A (vecOf K y) w s := by
  have hne : ¬(w + 1 = 0) := by intro h; linarith
  unfold recover_abundance_from_vectors at hrun
  rw [if_neg hne, if_pos hy, hs] at hrun
  constructor
  · simpa [solveReturn] using hrun.symm
  · obtain ⟨hf, hmin⟩ := hopt
    refine ⟨hf, fun t ht => ?_⟩
    have h1 : objective w s ≤ objective w t := hmin t ht
    calc specObjective w s = objective w s := (objective_eq_spec w s).symm
      _ ≤ objective w t := h1
      _ = specObjective w t := objective_eq_spec w t

/-- Witness for C1 at `A = [[1]]`, `y = [1]`, `w = 1`, with a solver oracle
returning the optimal solution `x = 1, u = v = 0`. -/
theorem recover_abundance_solves_claimed_lp_witness :
    (0 : ℚ) ≤ 1 ∧
      ([1] = List.ofFn sol111.x ∧ SpecIsOptimal A11 (vecOf 1 [1]) 1 sol111) := by
  refine ⟨by norm_num, ?_⟩
  exact recover_abundance_solves_claimed_lp solveOpt11 A11 [1] 1 [1] sol111
    (by norm_num) (by decide) rfl
    (optimal_of_obj_zero A11 (vecOf 1 [1]) (by norm_num)
      (by norm_num [Feasible, sol111, A11, vecOf, Fin.forall_fin_one,
        Fin.sum_univ_one])
      (by norm_num [objective, tau, sol111, Fin.sum_univ_one]))
    (by norm_num [recover_abundance_from_vectors, solveOpt11, sol111,
      solveReturn, List.ofFn_succ, vecOf])

/-- C2: any abundance estimate the function returns is the solution of the
solver verbatim (no post-solve clamping), and since the LP constraints
contain `x ≥ 0`, every entry of the returned vector is `≥ -ε` for every
tolerance `ε ≥ 0`. -/
theorem abundance_entries_ge_neg_eps {K N : ℕ}
    (solve : CvxProblem K N → SolveOutcome K N) (A : Fin K → Fin N → ℚ)
    (y : List ℚ) (w eps : ℚ) (xs : List ℚ) (s : LPSol K N) (i : ℕ)
    (heps : 0 ≤ eps) (hy : y.length = K)
    (hs : solve ⟨objective w, Feasible A (vecOf K y)⟩ =
      SolveOutcome.optimal s)
    (hfeas : Feasible A (vecOf K y) s)
    (hrun : recover_abundance_from_vectors solve A y w =
      Except.ok (some xs))
    (hnz : ¬(w + 1 = 0)) :
    xs = List.ofFn s.x ∧ -eps ≤ xs.getD i 0 := by
  unfold recover_abundance_from_vectors at hrun
  rw [if_neg hnz, if_pos hy, hs] at hrun
  have hxs : xs = List.ofFn s.x := by simpa [solveReturn] using hrun.symm
  refine ⟨hxs, ?_⟩
  subst hxs
  by_cases hi : i < (List.ofFn s.x).length
  · rw [List.getD_eq_getElem _ _ hi]
    rw [List.getElem_ofFn]
    have h1 := hfeas.1 ⟨i, by simpa using hi⟩
    linarith
  · rw [List.getD_eq_default _ _ (by omega)]
    linarith

/-- Witness for C2 at `A = [[1]]`, `y = [1]`, `w = 1`, `ε = 0`, entry `0`. -/
theorem abundance_entries_ge_neg_eps_witness :
    (0 : ℚ) ≤ 0 ∧
      ([1] = List.ofFn sol111.x ∧ -(0 : ℚ) ≤ ([1] : List ℚ).getD 0 0) := by
  refine ⟨le_refl 0, ?_⟩
  exact abundance_entries_ge_neg_eps solveOpt11 A11 [1] 1 0 [1] sol111 0
    (le_refl 0) (by decide) rfl
    (by norm_num [Feasible, sol111, A11, vecOf, Fin.forall_fin_one,
      Fin.sum_univ_one])
    (by norm_num [recover_abundance_from_vectors, solveOpt11, sol111,
      solveReturn, List.ofFn_succ, vecOf])
    (by norm_num)

/-- C3 counterexample: when the backend reports a non-optimal status
(infeasible/unbounded), `recover_abundance_from_vectors` returns normally
with `None` — it does not raise an `OptimizationError` (no such error exists
in the code).  Concrete input: `A = [[1]]`, `y = [1]`, `w = 1`, failing
backend. -/
theorem failed_solve_cex :
    recover_abundance_from_vectors (solveFail 1 1) A11 [1] 1 = Except.ok none ∧
      (Except.ok none : Except PyError (Option (List ℚ))) ≠
        Except.error PyError.optimizationError := by
  refine ⟨?_, by intro h; exact Except.noConfusion h⟩
  norm_num [recover_abundance_from_vectors, solveFail, solveReturn]

/-- C3 amended: whenever the backend does not produce a solution, the
function returns `None` (for an infeasible/unbounded status) or lets the
`SolverError` of the backend propagate (for a numerical failure); it never
raises an `OptimizationError` and never returns any vector — in particular no
zero-filled or partially computed estimate. -/
theorem failed_solve_returns_none {K N : ℕ}
    (solve : CvxProblem K N → SolveOutcome K N) (A : Fin K → Fin N → ℚ)
    (y : List ℚ) (w : ℚ) (xs : List ℚ)
    (hw : ¬(w + 1 = 0)) (hy : y.length = K)
    (hfail : ∀ s, solve ⟨objective w, Feasible A (vecOf K y)⟩ ≠
      SolveOutcome.optimal s) :
    (recover_abundance_from_vectors solve A y w = Except.ok none ∨
      recover_abundance_from_vectors solve A y w =
        Except.error PyError.solverError) ∧
    recover_abundance_from_vectors solve A y w ≠
      Except.error PyError.optimizationError ∧
    recover_abundance_from_vectors solve A y w ≠ Except.ok (some xs) := by
  unfold recover_abundance_from_vectors
  rw [if_neg hw, if_pos hy]
  cases hsv : solve ⟨objective w, Feasible A (vecOf K y)⟩ with
  | optimal s => exact absurd hsv (hfail s)
  | failed => exact ⟨Or.inl rfl, by simp [solveReturn], by simp [solveReturn]⟩
  | raised => exact ⟨Or.inr rfl, by simp [solveReturn], by simp [solveReturn]⟩

/-- Witness for the amended C3 at `A = [[1]]`, `y = [1]`, `w = 1` with a
backend that always fails. -/
theorem failed_solve_returns_none_witness :
    ¬((1 : ℚ) + 1 = 0) ∧
      ((recover_abundance_from_vectors (solveFail 1 1) A11 [1] 1 =
          Except.ok none ∨
        recover_abundance_from_vectors (solveFail 1 1) A11 [1] 1 =
          Except.error PyError.solverError) ∧
      recover_abundance_from_vectors (solveFail 1 1) A11 [1] 1 ≠
        Except.error PyError.optimizationError ∧
      recover_abundance_from_vectors (solveFail 1 1) A11 [1] 1 ≠
        Except.ok (some [0])) := by
  refine ⟨by norm_num, ?_⟩
  exact failed_solve_returns_none (solveFail 1 1) A11 [1] 1 [0]
    (by norm_num) rfl (fun s h => SolveOutcome.noConfusion h)

/-- C4 counterexample: calling the function with a sample vector of length 3
against a 2-row matrix fails with the broadcast `ValueError` that `cvxpy`
raises while building the equality constraint — not with a
`ShapeMismatchError` (no such error exists in the code, and there is no
validation step). -/
theorem shape_mismatch_cex :
    recover_abundance_from_vectors (solveFail 2 2) A22 [1, 2, 3] 1 =
      Except.error PyError.valueError ∧
    (Except.error PyError.valueError : Except PyError (Option (List ℚ))) ≠
      Except.error PyError.shapeMismatchError := by
  refine ⟨?_, by intro h; injection h with h2; exact PyError.noConfusion h2⟩
  norm_num [recover_abundance_from_vectors]

/-- C4 amended: there is no validation step and no `ShapeMismatchError`.
When the length of the sample vector differs from `K` and neither side of
the equality constraint is scalar-like (`len(y) ≠ 1` and `K ≠ 1`; a
scalar-like side would be broadcast by `cvxpy` and the solve would proceed),
the call fails with the generic broadcast `ValueError` arising while the
constraint is built — and then the solver is never invoked: the result is
identical for any two solver backends.  (When `w = -1`, the
`ZeroDivisionError` from `tau` fires first, hence the `w + 1 ≠ 0`
hypothesis.) -/
theorem shape_mismatch_behaviour {K N : ℕ}
    (solve solve2 : CvxProblem K N → SolveOutcome K N)
    (A : Fin K → Fin N → ℚ) (y : List ℚ) (w : ℚ)
    (hw : ¬(w + 1 = 0)) (hy : ¬(y.length = K)) (hy1 : ¬(y.length = 1))
    (hK : ¬(K = 1)) :
    recover_abundance_from_vectors solve A y w =
      Except.error PyError.valueError ∧
    recover_abundance_from_vectors solve A y w =
      recover_abundance_from_vectors solve2 A y w := by
  unfold recover_abundance_from_vectors
  rw [if_neg hw, if_neg hy, if_neg hy1, dif_neg hK,
    if_neg hw, if_neg hy, if_neg hy1, dif_neg hK]
  exact ⟨rfl, rfl⟩

/-- Witness for the amended C4 at `A` of shape 2×2, `y = [1, 2, 3]`,
`w = 1`, with two different backends. -/
theorem shape_mismatch_behaviour_witness :
    ¬(([1, 2, 3] : List ℚ).length = 2) ∧
      (recover_abundance_from_vectors (solveFail 2 2) A22 [1, 2, 3] 1 =
        Except.error PyError.valueError ∧
      recover_abundance_from_vectors (solveFail 2 2) A22 [1, 2, 3] 1 =
        recover_abundance_from_vectors solveOpt22 A22 [1, 2, 3] 1) := by
  refine ⟨by decide, ?_⟩
  exact shape_mismatch_behaviour (solveFail 2 2) solveOpt22 A22 [1, 2, 3] 1
    (by norm_num) (by decide) (by decide) (by decide)

/-- C5 counterexample: at the negative weight `w = -1/2` the function raises
nothing at all — the solve proceeds and the function returns normally (here
the backend reports failure and `None` comes back); no
`InvalidParameterError` exists in the code. -/
theorem negative_weight_cex :
    ((-1 / 2 : ℚ) < 0) ∧
    recover_abundance_from_vectors (solveFail 1 1) A11 [1] (-1 / 2) =
      Except.ok none ∧
    (Except.ok (none : Option (List ℚ)) : Except PyError (Option (List ℚ))) ≠
      Except.error PyError.invalidParameterError := by
  refine ⟨by norm_num, ?_, by intro h; exact Except.noConfusion h⟩
  norm_num [recover_abundance_from_vectors, solveFail, solveReturn]

/-- C5 amended: a negative weight is not validated and never produces an
`InvalidParameterError`: for `w = -1` the computation of `tau = 1/(w+1)`
raises `ZeroDivisionError`, and for every other negative `w` the call
proceeds exactly as for a nonnegative weight. -/
theorem negative_weight_behaviour {K N : ℕ}
    (solve : CvxProblem K N → SolveOutcome K N) (A : Fin K → Fin N → ℚ)
    (y : List ℚ) (w : ℚ) (hw : w < 0) :
    (w + 1 = 0 ∧ recover_abundance_from_vectors solve A y w =
      Except.error PyError.zeroDivisionError) ∨
    (¬(w + 1 = 0) ∧ recover_abundance_from_vectors solve A y w ≠
      Except.error PyError.invalidParameterError) := by
  by_cases h : w + 1 = 0
  · left
    refine ⟨h, ?_⟩
    unfold recover_abundance_from_vectors
    rw [if_pos h]
  · right
    refine ⟨h, ?_⟩
    unfold recover_abundance_from_vectors
    rw [if_neg h]
    split
    · exact solveReturn_ne_invalid _
    · split
      · exact solveReturn_ne_invalid _
      · split
        · exact solveReturn_ne_invalid _
        · simp

/-- Witness for the amended C5 at `w = -1`. -/
theorem negative_weight_behaviour_witness :
    ((-1 : ℚ) < 0) ∧
      (((-1 : ℚ) + 1 = 0 ∧
          recover_abundance_from_vectors (solveFail 1 1) A11 [1] (-1) =
            Except.error PyError.zeroDivisionError) ∨
        (¬((-1 : ℚ) + 1 = 0) ∧
          recover_abundance_from_vectors (solveFail 1 1) A11 [1] (-1) ≠
            Except.error PyError.invalidParameterError)) := by
  refine ⟨by norm_num, ?_⟩
  exact negative_weight_behaviour (solveFail 1 1) A11 [1] (-1) (by norm_num)

/-- C6 counterexample: at `A = [[1]]`, `y = [0]`, `w = 0` the weighting is
`tau = 1`, so the `v` term has objective coefficient `0` and the nonzero
point `x = 1, u = 0, v = 1` is also optimal (objective `0`).  A solver that
returns this optimum makes `recover_abundance_from_vectors` return `[1]`,
not the all-zero vector — so the claim fails as stated ("regardless of
w"). -/
theorem zero_sample_cex :
    IsOptimal ⟨objective 0, Feasible A11 (vecOf 1 [0])⟩ solNZ ∧
    recover_abundance_from_vectors solveNZ A11 [0] 0 = Except.ok (some [1]) ∧
    ([1] : List ℚ) ≠ [0] := by
  refine ⟨?_, ?_, by norm_num⟩
  · exact optimal_of_obj_zero A11 (vecOf 1 [0]) (le_refl 0)
      (by norm_num [Feasible, solNZ, A11, vecOf, Fin.forall_fin_one,
        Fin.sum_univ_one])
      (by norm_num [objective, tau, solNZ, Fin.sum_univ_one])
  · norm_num [recover_abundance_from_vectors, solveNZ, solNZ,
      solveReturn, List.ofFn_succ]

/-- C6 amended: for a zero sample vector the all-zero solution is always
optimal (objective `0`); and when moreover `w > 0` (so both objective
weights are positive), `A` is entrywise nonnegative and no column of `A` is
zero, every optimal solution has `x = 0` — under those hypotheses an
optimum-returning solver must return the all-zero abundance.  (At `w = 0`,
or when `A` has a zero column, the optimum is not unique and a conforming
solver may return a nonzero `x`, as the counterexample shows.) -/
theorem zero_sample_recovery {K N : ℕ} (A : Fin K → Fin N → ℚ) (w : ℚ)
    (s : LPSol K N) (j : Fin N)
    (hw : 0 < w) (hA : ∀ k j2, 0 ≤ A k j2) (hcol : ∀ j2, ∃ k, 0 < A k j2)
    (hs : IsOptimal ⟨objective w, Feasible A (fun _ => 0)⟩ s) :
    IsOptimal ⟨objective w, Feasible A (fun _ => 0)⟩ (zeroSol K N) ∧
      s.x j = 0 := by
  have hfz : Feasible A (fun _ => 0) (zeroSol K N) := by
    refine ⟨fun j2 => le_refl 0, fun k => le_refl 0, fun k => le_refl 0,
      fun k => ?_⟩
    simp [zeroSol]
  have hoz : objective w (zeroSol K N) = 0 := by
    simp [objective, zeroSol]
  refine ⟨optimal_of_obj_zero A (fun _ => 0) hw.le hfz hoz, ?_⟩
  have htau0 : 0 < tau w := tau_pos_of_nonneg hw.le
  have htau1 : tau w < 1 := tau_lt_one_of_pos hw
  obtain ⟨hu0, hv0⟩ := uv_eq_zero_of_optimal htau0 htau1 hs (zeroSol K N)
    hfz hoz
  obtain ⟨hx, hu, hv, hc⟩ := hs.1
  have hrow : ∀ k, (Finset.univ.sum fun j2 => A k j2 * s.x j2) = 0 := by
    intro k
    have h1 := hc k
    rw [hu0 k, hv0 k] at h1
    simpa using h1
  have hterm : ∀ k j2, A k j2 * s.x j2 = 0 := by
    intro k j2
    have h2 := (Finset.sum_eq_zero_iff_of_nonneg
      (fun j3 _ => mul_nonneg (hA k j3) (hx j3))).1 (hrow k)
    simpa using h2 j2 (Finset.mem_univ j2)
  obtain ⟨k, hk⟩ := hcol j
  rcases mul_eq_zero.1 (hterm k j) with h | h
  · exact absurd h (ne_of_gt hk)
  · exact h

/-- Witness for the amended C6 at `A = [[1]]`, `w = 1`, with the all-zero
optimal solution. -/
theorem zero_sample_recovery_witness :
    (0 : ℚ) < 1 ∧
      (IsOptimal ⟨objective 1, Feasible A11 (fun _ => 0)⟩ (zeroSol 1 1) ∧
        (zeroSol 1 1).x 0 = 0) := by
  have hfz : Feasible A11 (fun _ => 0) (zeroSol 1 1) := by
    norm_num [Feasible, zeroSol, A11, Fin.forall_fin_one, Fin.sum_univ_one]
  have hoz : objective (1 : ℚ) (zeroSol 1 1) = 0 := by
    norm_num [objective, tau, zeroSol, Fin.sum_univ_one]
  refine ⟨by norm_num, ?_⟩
  exact zero_sample_recovery A11 1 (zeroSol 1 1) 0 (by norm_num)
    (fun k j2 => by norm_num [A11]) (fun j2 => ⟨0, by norm_num [A11]⟩)
    (optimal_of_obj_zero A11 (fun _ => 0) (by norm_num) hfz hoz)

/-- C7: for `A = [[1,0],[0,1]]`, `y = [5,0]`, `w = 1`, the optimum is unique
(`tau = 1/2` puts positive weight on both residual parts, so any optimum has
`u = v = 0` and then the rows force `x = (5,0)`): whenever the solver returns
an optimum of the formulated problem, `recover_abundance_from_vectors`
returns exactly `[5, 0]`. -/
theorem identity_scenario
    (solve : CvxProblem 2 2 → SolveOutcome 2 2) (xs : List ℚ)
    (hopt : ∀ s, solve ⟨objective 1, Feasible A22 (vecOf 2 [5, 0])⟩ =
        SolveOutcome.optimal s →
      IsOptimal ⟨objective 1, Feasible A22 (vecOf 2 [5, 0])⟩ s)
    (hrun : recover_abundance_from_vectors solve A22 [5, 0] 1 =
      Except.ok (some xs)) :
    xs = [5, 0] := by
  have hne : ¬((1 : ℚ) + 1 = 0) := by norm_num
  unfold recover_abundance_from_vectors at hrun
  rw [if_neg hne, if_pos (show ([5, 0] : List ℚ).length = 2 from rfl)] at hrun
  cases hsv : solve ⟨objective 1, Feasible A22 (vecOf 2 [5, 0])⟩ with
  | optimal s =>
    rw [hsv] at hrun
    have hxs : xs = List.ofFn s.x := by simpa [solveReturn] using hrun.symm
    have hiso := hopt s hsv
    have hf22 : Feasible A22 (vecOf 2 [5, 0]) sol22 := by
      norm_num [Feasible, sol22, A22, y22, vecOf, Fin.forall_fin_two,
        Fin.sum_univ_two]
    have ho22 : objective (1 : ℚ) sol22 = 0 := by
      norm_num [objective, tau, sol22, Fin.sum_univ_two]
    have htau0 : 0 < tau (1 : ℚ) := by norm_num [tau]
    have htau1 : tau (1 : ℚ) < 1 := by norm_num [tau]
    obtain ⟨hu0, hv0⟩ := uv_eq_zero_of_optimal htau0 htau1 hiso sol22
      hf22 ho22
    obtain ⟨hx, hu, hv, hc⟩ := hiso.1
    have h0 := hc 0
    have h1 := hc 1
    rw [hu0 0, hv0 0] at h0
    rw [hu0 1, hv0 1] at h1
    have hx0 : s.x 0 = 5 := by
      have h2 := h0
      norm_num [A22, vecOf, Fin.sum_univ_two] at h2
      linarith
    have hx1 : s.x 1 = 0 := by
      have h2 := h1
      norm_num [A22, vecOf, Fin.sum_univ_two] at h2
      linarith
    rw [hxs]
    simp [List.ofFn_succ, hx0, hx1]
  | failed =>
    rw [hsv] at hrun
    exact absurd hrun (by simp [solveReturn])
  | raised =>
    rw [hsv] at hrun
    exact absurd hrun (by simp [solveReturn])

/-- Witness for C7 with a solver oracle returning `x = (5,0), u = v = 0`. -/
theorem identity_scenario_witness :
    recover_abundance_from_vectors solveOpt22 A22 [5, 0] 1 =
      Except.ok (some [5, 0]) ∧ ([5, 0] : List ℚ) = [5, 0] := by
  have hrun : recover_abundance_from_vectors solveOpt22 A22 [5, 0] 1 =
      Except.ok (some [5, 0]) := by
    norm_num [recover_abundance_from_vectors, solveOpt22, sol22, y22,
      solveReturn, List.ofFn_succ, vecOf]
  refine ⟨hrun, ?_⟩
  refine identity_scenario solveOpt22 [5, 0] (fun s h => ?_) hrun
  have h2 : sol22 = s := by
    simp only [solveOpt22] at h
    injection h
  subst h2
  exact optimal_of_obj_zero A22 (vecOf 2 [5, 0]) (by norm_num)
    (by norm_num [Feasible, sol22, A22, y22, vecOf, Fin.forall_fin_two,
      Fin.sum_univ_two])
    (by norm_num [objective, tau, sol22, Fin.sum_univ_two])

/-- C8 counterexample: `np.nonzero` keeps every exactly-nonzero entry, with
no tolerance and regardless of sign: on the abundance vector `[-1]` the
computed support is `{0}` although the entry is not `> 0`.  So the support is
not "the set of indices where `x > 0` under a numerical tolerance". -/
theorem support_cex :
    supportOf [(-1 : ℚ)] = [0] ∧ ¬(0 < (-1 : ℚ)) := by
  constructor
  · simp [supportOf, List.filter]
  · norm_num

/-- C8 amended: after a successful solve the pipeline computes
`support = np.nonzero(abundance)` — the indices whose entry is exactly
nonzero (including negative entries, no tolerance) — into a local variable
that is never used; the Result Writer is handed the abundance vector and the
organism names, not the support. -/
theorem support_unused_and_exact {K N : ℕ} (env : Env K N) (a : Args)
    (mf sf : String) (ks : ℕ) (w : ℚ) (tr : List String)
    (out : (String × String) × List (String × ℚ)) (ab : List ℚ) (i : ℕ)
    (h : recover_abundance_from_files env (some a) mf sf ks w =
      (tr, Except.ok (out, ab))) :
    write_abundance_results ab
      (env.readOrganisms (processedOrgFile a.ref_file)) = some out ∧
    (i ∈ supportOf ab ↔ i < ab.length ∧ ¬(ab.getD i 0 = 0)) := by
  refine ⟨(from_files_ok_inv env a mf sf ks w tr out ab h).2.1, ?_⟩
  simp [supportOf, List.mem_filter, List.mem_range]

/-- Witness for the amended C8 on a concrete one-organism pipeline run. -/
theorem support_unused_and_exact_witness :
    recover_abundance_from_files env11 (some args1) "m.npz" "s.sig" 31 1 =
      (["m.npz", hashToIdxFile args1.ref_file,
        processedOrgFile args1.ref_file],
        Except.ok ((("organism name", "estimated abundance"),
          [("orgA", (1 : ℚ))]), [1])) ∧
    (write_abundance_results [1]
        (env11.readOrganisms (processedOrgFile args1.ref_file)) =
      some (("organism name", "estimated abundance"), [("orgA", (1 : ℚ))]) ∧
    (0 ∈ supportOf [1] ↔
      0 < ([1] : List ℚ).length ∧ ¬(([1] : List ℚ).getD 0 0 = 0))) := by
  have hv : recover_abundance_from_vectors env11.solve
      (env11.readMatrix "m.npz")
      (env11.readSampleVector "s.sig" (hashToIdxFile args1.ref_file) 31) 1 =
      Except.ok (some [1]) := by
    norm_num [recover_abundance_from_vectors, env11, solveOpt11, sol111,
      solveReturn, List.ofFn_succ, vecOf]
  have h : recover_abundance_from_files env11 (some args1) "m.npz" "s.sig"
      31 1 =
      (["m.npz", hashToIdxFile args1.ref_file,
        processedOrgFile args1.ref_file],
        Except.ok ((("organism name", "estimated abundance"),
          [("orgA", (1 : ℚ))]), [1])) := by
    simp only [recover_abundance_from_files]
    rw [hv]
    simp [write_abundance_results, resultRows, env11]
    rfl
  exact ⟨h, support_unused_and_exact env11 args1 "m.npz" "s.sig" 31 1
    _ _ _ 0 h⟩

/-- C9: for an abundance estimate and an organism manifest of equal length,
`write_abundance_results` emits the fixed two-column header followed by
exactly one row per organism, the `i`-th row pairing the `i`-th organism name
with the `i`-th abundance entry, in original manifest index order (zero
entries included — every index below the manifest length yields a row, and
no sorting happens anywhere). -/
theorem writer_rows (ab : List ℚ) (orgs : List String) (i : ℕ)
    (hlen : ab.length = orgs.length) (hi : i < orgs.length) :
    write_abundance_results ab orgs =
      some (("organism name", "estimated abundance"), resultRows ab orgs) ∧
    (resultRows ab orgs).length = orgs.length ∧
    (resultRows ab orgs).getD i ("", 0) = (orgs.getD i "", ab.getD i 0) := by
  refine ⟨?_, ?_, ?_⟩
  · unfold write_abundance_results
    rw [if_pos (le_of_eq hlen.symm)]
  · simp [resultRows]
  · have hi2 : i < (resultRows ab orgs).length := by
      simpa [resultRows] using hi
    rw [List.getD_eq_getElem _ _ hi2]
    simp [resultRows]

/-- Witness for C9 with `abundance = [0, 5]`, organisms `["a", "b"]`, row 1
(the zero entry of the vector still yields row 0). -/
theorem writer_rows_witness :
    ([0, 5] : List ℚ).length = (["a", "b"] : List String).length ∧
      (write_abundance_results [0, 5] ["a", "b"] =
        some (("organism name", "estimated abundance"),
          resultRows [0, 5] ["a", "b"]) ∧
      (resultRows [0, 5] ["a", "b"]).length =
        (["a", "b"] : List String).length ∧
      (resultRows [0, 5] ["a", "b"]).getD 1 ("", 0) =
        ((["a", "b"] : List String).getD 1 "",
          ([0, 5] : List ℚ).getD 1 0)) := by
  refine ⟨rfl, ?_⟩
  exact writer_rows [0, 5] ["a", "b"] 1 rfl (by norm_num)

/-- C10: the auxiliary file names used by `recover_abundance_from_files` are
derived from the module-level global `args.ref_file`, not from the
`matrix_file` parameter.  When the module-level `args` is undefined (library
use without CLI parsing) the call fails with `NameError` before reading any
input; otherwise the files read are the matrix file followed by the two
auxiliary files built from the `args.ref_file` prefix — for every value of
`matrix_file`, in particular when it differs from `args.ref_file`. -/
theorem aux_paths_from_global_args {K N : ℕ} (env : Env K N) (a : Args)
    (mf sf : String) (ks : ℕ) (w : ℚ) :
    recover_abundance_from_files env none mf sf ks w =
      ([], Except.error PyError.nameError) ∧
    ((recover_abundance_from_files env (some a) mf sf ks w).1 =
        [mf, hashToIdxFile a.ref_file] ∨
      (recover_abundance_from_files env (some a) mf sf ks w).1 =
        [mf, hashToIdxFile a.ref_file, processedOrgFile a.ref_file]) := by
  refine ⟨rfl, ?_⟩
  simp only [recover_abundance_from_files]
  split
  · left; rfl
  · left; rfl
  · split
    · right; rfl
    · right; rfl

end YACHT
